import Mathlib

/-!
Verification of the client-side authentication / session subsystem of the
e-commerce storefront: the Token Store, Request Pipeline (axios interceptors),
Session Bootstrapper and Auth Facade.

Shallow embedding notes:
* The mutable module-level variables of `services/api.ts` (`accessToken`,
  `refreshToken`) together with the `localStorage` slot `'refreshToken'`
  are modelled as an explicit `TokenState` record that every operation
  threads through.
* JavaScript string-or-null values are `Option String`; JS truthiness of such
  a value (`if (accessToken && ...)`, `if (storedRefresh)`, `refreshToken &&`)
  is the `truthy` predicate below: `null` and the empty string are falsy.
* Network I/O is modelled by oracle parameters: each `await`ed call takes its
  outcome (`SendOutcome` / `RefreshOutcome` / `CallOutcome`) as an argument.
* User profiles are opaque data; `User` is a plain string identifier.
-/

/-- A user profile, treated as opaque payload data. -/
abbrev User := String

/-- The token state of one browser tab: the two in-memory module variables of
`services/api.ts` plus the durable `localStorage` slot `'refreshToken'`. -/
structure TokenState where
  accessToken : Option String
  refreshToken : Option String
  storedRefresh : Option String
  deriving Repr, DecidableEq

/-- JS truthiness of a `string | null` value: `null` and `""` are falsy. -/
def truthy : Option String → Bool
  | none => false
  | some s => !(s == "")

/-- From `services/api.ts` (`setTokens`): stores both tokens; the refresh token
is also persisted to the durable slot. -/
def setTokens (access refresh : String) (_s : TokenState) : TokenState :=
  { accessToken := some access
    refreshToken := some refresh
    storedRefresh := some refresh }

/-- From `services/api.ts` (`getAccessToken`): returns the in-memory access
token or absent. -/
def getAccessToken (s : TokenState) : Option String :=
  s.accessToken

/-- From `services/api.ts` (`clearTokens`): nulls both in-memory tokens and
removes the durable slot. -/
def clearTokens (_s : TokenState) : TokenState :=
  { accessToken := none, refreshToken := none, storedRefresh := none }

/-- From `services/api.ts` (`loadStoredRefreshToken`): copies the durable slot
into the in-memory refresh token and returns it. -/
def loadStoredRefreshToken (s : TokenState) : Option String × TokenState :=
  (s.storedRefresh, { s with refreshToken := s.storedRefresh })

/-- An outbound request config (`InternalAxiosRequestConfig` plus the ad-hoc
`_retry` marker used by the response interceptor). Only the pieces the
interceptors look at are modelled: the url, the `Authorization` header slot
and the `_retry` flag. -/
structure Request where
  url : String
  authHeader : Option String
  retryFlag : Bool
  deriving Repr, DecidableEq

/-- A request as built by the service layer (`api.get/post/patch` calls):
no service in the repository sets an `Authorization` header or the `_retry`
marker itself. -/
def mkRequest (url : String) : Request :=
  { url := url, authHeader := none, retryFlag := false }

/-- From `services/api.ts`, the request interceptor: if an access token is
truthy, set the `Authorization` header to the bearer credential; otherwise the
config passes through unchanged. -/
def requestInterceptor (s : TokenState) (config : Request) : Request :=
  if truthy s.accessToken then
    { config with authHeader := some ("Bearer " ++ (s.accessToken.getD "")) }
  else
    config

/-- A failed axios call: either an HTTP response with a status code
(`error.response.status`) or a transport failure with no response
(`error.response` undefined). -/
inductive RespError where
  | http : Nat → RespError
  | network : RespError
  deriving Repr, DecidableEq

/-- Whether `error.response?.status === 401` holds. -/
def is401 : RespError → Bool
  | RespError.http n => n == 401
  | RespError.network => false

/-- Outcome of the refresh exchange `POST /auth/refresh/` (done on a bare
axios instance that bypasses the interceptors): a new access token, or any
failure. -/
inductive RefreshOutcome where
  | ok : String → RefreshOutcome
  | err : RefreshOutcome
  deriving Repr, DecidableEq

/-- Observable effect of one run of the response-error interceptor:
the resulting token state, whether the user agent was redirected to
`'/login'`, whether a refresh exchange was attempted, the request re-issued
through the pipeline (if any), and the error rejected to the caller (if any;
when a request is re-issued the caller instead receives that request's
result). -/
structure InterceptOut where
  tokens : TokenState
  redirect : Bool
  refreshAttempted : Bool
  reissued : Option Request
  rejected : Option RespError
  deriving Repr, DecidableEq

/-- From `services/api.ts`, the response interceptor's error handler:
on a 401 with a truthy in-memory refresh token and the `_retry` marker unset,
mark the request retried and attempt the refresh exchange; on refresh success
replace the in-memory access token, set the bearer header and re-issue the
original request; on refresh failure clear all tokens, redirect to `'/login'`
and reject with the original error. Any other failure is rejected unchanged. -/
def onResponseError (s : TokenState) (req : Request) (e : RespError)
    (rr : RefreshOutcome) : InterceptOut :=
  if is401 e && truthy s.refreshToken && !req.retryFlag then
    let req1 : Request := { req with retryFlag := true }
    match rr with
    | RefreshOutcome.ok access =>
        { tokens := { s with accessToken := some access }
          redirect := false
          refreshAttempted := true
          reissued := some { req1 with authHeader := some ("Bearer " ++ access) }
          rejected := none }
    | RefreshOutcome.err =>
        { tokens := clearTokens s
          redirect := true
          refreshAttempted := true
          reissued := none
          rejected := some e }
  else
    { tokens := s
      redirect := false
      refreshAttempted := false
      reissued := none
      rejected := some e }

/-- Outcome of actually sending a request: a successful response body, or a
failure. -/
inductive SendOutcome where
  | ok : String → SendOutcome
  | err : RespError → SendOutcome
  deriving Repr, DecidableEq

/-- Aggregate observation of running one logical request through the pipeline:
final token state, whether a redirect happened, how many refresh exchanges
were attempted, how many times the request was sent, what the caller
observes, and whether the round budget (`fuel`) ran out. -/
structure RunResult where
  tokens : TokenState
  redirect : Bool
  refreshCount : Nat
  sendCount : Nat
  callerResult : Sum String RespError
  fuelOut : Bool
  deriving Repr, DecidableEq

/-- One logical request driven through the pipeline: each round applies the
request interceptor, sends (outcome given by the oracle `sends` at the round
index), and on failure runs the response-error interceptor; a re-issued
request starts the next round. `fuel` bounds the rounds so the definition is
total; the theorems show two rounds always suffice because of the `_retry`
marker. -/
def runFrom : Nat → TokenState → Request → (Nat → SendOutcome) →
    (Nat → RefreshOutcome) → Nat → RunResult
  | 0, s, _, _, _, _ =>
      { tokens := s, redirect := false, refreshCount := 0, sendCount := 0
        callerResult := Sum.inr RespError.network, fuelOut := true }
  | Nat.succ fuel, s, req, sends, rs, i =>
      let req' := requestInterceptor s req
      match sends i with
      | SendOutcome.ok r =>
          { tokens := s, redirect := false, refreshCount := 0, sendCount := 1
            callerResult := Sum.inl r, fuelOut := false }
      | SendOutcome.err e =>
          let io := onResponseError s req' e (rs i)
          match io.reissued with
          | none =>
              { tokens := io.tokens
                redirect := io.redirect
                refreshCount := if io.refreshAttempted then 1 else 0
                sendCount := 1
                callerResult := Sum.inr (io.rejected.getD e)
                fuelOut := false }
          | some req2 =>
              let rest := runFrom fuel io.tokens req2 sends rs (i + 1)
              { tokens := rest.tokens
                redirect := io.redirect || rest.redirect
                refreshCount :=
                  rest.refreshCount + (if io.refreshAttempted then 1 else 0)
                sendCount := rest.sendCount + 1
                callerResult := rest.callerResult
                fuelOut := rest.fuelOut }

/-- Result of the Session Bootstrapper run (`authService.refreshSession`):
final token state, the restored user profile (absent means `Anonymous`), and
how many network calls were made. -/
structure BootOut where
  tokens : TokenState
  user : Option User
  networkCalls : Nat
  deriving Repr, DecidableEq

/-- From `services/auth.ts` (`authService.refreshSession`): load the stored
refresh token; if falsy return `null` with no network call; otherwise exchange
it (`POST /auth/refresh/`), on success `setTokens(new access, same refresh)`
and fetch the profile; if either network step fails, clear all tokens and
return `null`. -/
def refreshSession (s : TokenState) (rr : RefreshOutcome) (pr : Option User) :
    BootOut :=
  let s1 := (loadStoredRefreshToken s).2
  match s.storedRefresh with
  | none => { tokens := s1, user := none, networkCalls := 0 }
  | some r =>
      if r = "" then { tokens := s1, user := none, networkCalls := 0 }
      else
        match rr with
        | RefreshOutcome.err =>
            { tokens := clearTokens s1, user := none, networkCalls := 1 }
        | RefreshOutcome.ok access =>
            match pr with
            | none =>
                { tokens := clearTokens (setTokens access r s1)
                  user := none, networkCalls := 2 }
            | some u =>
                { tokens := setTokens access r s1
                  user := some u, networkCalls := 2 }

/-- The application-level auth state: token state plus the `user` value of the
`AuthProvider` React state (`null` means unauthenticated). -/
structure AppState where
  tokens : TokenState
  user : Option User
  deriving Repr, DecidableEq

/-- From `contexts/AuthContext.tsx` (`initAuth`): run `refreshSession` and
store its result as the current user. -/
def initAuth (st : AppState) (rr : RefreshOutcome) (pr : Option User) :
    AppState :=
  let b := refreshSession st.tokens rr pr
  { tokens := b.tokens, user := b.user }

/-- From `contexts/AuthContext.tsx`: `isAuthenticated` is `!!user`. -/
def isAuthenticated (st : AppState) : Bool :=
  st.user.isSome

/-- Outcome of the remote logout call `POST /auth/logout/` as observed by the
caller: fulfilled, or rejected (covers HTTP failure and network failure). -/
inductive CallOutcome where
  | ok : CallOutcome
  | err : CallOutcome
  deriving Repr, DecidableEq

/-- From `services/auth.ts` (`authService.logout`): `try { await api.post }
finally { clearTokens() }` — tokens are cleared on every path, but there is
no catch, so a rejected remote call is re-thrown to the caller: the returned
`CallOutcome` is the promise's outcome. -/
def authServiceLogout (oc : CallOutcome) (s : TokenState) :
    TokenState × CallOutcome :=
  (clearTokens s, oc)

/-- Observable effect of `AuthProvider.logout`: the resulting app state,
whether the remote logout call was made, whether `clearTokens` ran, and
whether the returned promise fulfilled (`succeeded = false` means it
rejected). -/
structure LogoutOut where
  state : AppState
  networkCall : Bool
  cleared : Bool
  succeeded : Bool
  deriving Repr, DecidableEq

/-- From `contexts/AuthContext.tsx` (`logout`): read the durable slot; if it
is truthy, `await authService.logout(storedRefresh)` (which clears tokens on
every path but re-throws a rejection, skipping `setUser(null)`); then
`setUser(null)`. If the slot is falsy, no network call and no `clearTokens`;
only `setUser(null)` runs. -/
def providerLogout (oc : CallOutcome) (st : AppState) : LogoutOut :=
  if truthy st.tokens.storedRefresh then
    match authServiceLogout oc st.tokens with
    | (t, CallOutcome.ok) =>
        { state := { tokens := t, user := none }
          networkCall := true, cleared := true, succeeded := true }
    | (t, CallOutcome.err) =>
        { state := { tokens := t, user := st.user }
          networkCall := true, cleared := true, succeeded := false }
  else
    { state := { tokens := st.tokens, user := none }
      networkCall := false, cleared := false, succeeded := true }

/-- From `services/auth.ts` (`login` / `register`) together with the
`AuthProvider` handlers: on success `setTokens(access, refresh)` and
`setUser(user)`. -/
def applyLogin (a r : String) (u : User) (st : AppState) : AppState :=
  { tokens := setTokens a r st.tokens, user := some u }

/-- Token-state effect of one run of the response-error interceptor. -/
def applyIntercept (req : Request) (e : RespError) (rr : RefreshOutcome)
    (st : AppState) : AppState :=
  { st with tokens := (onResponseError st.tokens req e rr).tokens }

/-- A well-formed token slot: absent, or a nonempty string. The server never
issues empty-string tokens, and the durable slot is only ever written via
`setTokens` (with a server token) or removed via `clearTokens`. -/
def GoodSlot (o : Option String) : Prop :=
  o = none ∨ ∃ r, o = some r ∧ r ≠ ""

/-- A refresh exchange outcome whose issued access token, if any, is a
nonempty string (server tokens are nonempty). -/
def GoodRefresh : RefreshOutcome → Prop
  | RefreshOutcome.ok a => a ≠ ""
  | RefreshOutcome.err => True

/-- The states one browser tab can actually be in: a fresh page load (empty
memory, any well-formed durable slot), then any interleaving of the
credential-mutating operations of the subsystem: login/register success,
`AuthProvider.logout`, the Session Bootstrapper, the response-error
interceptor, and `refreshUser` (which only replaces the held profile). -/
inductive Reachable : AppState → Prop where
  | init (slot : Option String) (h : GoodSlot slot) :
      Reachable { tokens := { accessToken := none, refreshToken := none
                              storedRefresh := slot }
                  user := none }
  | login (st : AppState) (a r : String) (u : User) (hst : Reachable st)
      (ha : a ≠ "") (hr : r ≠ "") : Reachable (applyLogin a r u st)
  | logout (st : AppState) (oc : CallOutcome) (hst : Reachable st) :
      Reachable (providerLogout oc st).state
  | bootstrap (st : AppState) (rr : RefreshOutcome) (pr : Option User)
      (hst : Reachable st) (hrr : GoodRefresh rr) :
      Reachable (initAuth st rr pr)
  | intercept (st : AppState) (req : Request) (e : RespError)
      (rr : RefreshOutcome) (hst : Reachable st) (hrr : GoodRefresh rr) :
      Reachable (applyIntercept req e rr st)
  | profileRefresh (st : AppState) (u : User) (hst : Reachable st) :
      Reachable { st with user := some u }

/-- The token-state invariant maintained by every operation: all three slots
are well-formed, an in-memory refresh token is always mirrored in the durable
slot, and an in-memory access token is only held while a durable refresh
token exists. -/
def GoodState (t : TokenState) : Prop :=
  GoodSlot t.accessToken ∧
  GoodSlot t.refreshToken ∧
  GoodSlot t.storedRefresh ∧
  (∀ r, t.refreshToken = some r → t.storedRefresh = some r) ∧
  (t.accessToken ≠ none → t.storedRefresh ≠ none)

theorem truthy_eq_true {o : Option String} :
    truthy o = true ↔ ∃ r, o = some r ∧ r ≠ "" := by
  cases o with
  | none => simp [truthy]
  | some s => simp [truthy]

theorem truthy_eq_false {o : Option String} :
    truthy o = false ↔ o = none ∨ o = some "" := by
  cases o with
  | none => simp [truthy]
  | some s => simp [truthy]

theorem goodSlot_falsy {o : Option String} (hg : GoodSlot o)
    (hf : truthy o = false) : o = none := by
  rcases truthy_eq_false.mp hf with h | h
  · exact h
  · rcases hg with hn | ⟨r, hr, hne⟩
    · exact hn
    · rw [h] at hr
      exact absurd (Option.some.injEq _ _ ▸ hr) (fun hrr => hne hrr.symm)

theorem goodState_clear (s : TokenState) : GoodState (clearTokens s) := by
  refine ⟨Or.inl rfl, Or.inl rfl, Or.inl rfl, ?_, ?_⟩
  · intro r hr
    exact absurd hr (by simp [clearTokens])
  · intro ha
    exact absurd rfl ha

/-- Every reachable state satisfies the token-state invariant. -/
theorem reachable_good {st : AppState} (h : Reachable st) :
    GoodState st.tokens := by
  induction h with
  | init slot hslot =>
      exact ⟨Or.inl rfl, Or.inl rfl, hslot,
        fun r hr => absurd hr (by simp),
        fun ha => absurd rfl ha⟩
  | login st a r u hst ha hr ih =>
      exact ⟨Or.inr ⟨a, rfl, ha⟩, Or.inr ⟨r, rfl, hr⟩, Or.inr ⟨r, rfl, hr⟩,
        fun r' hr' => hr', fun _ => by simp [applyLogin, setTokens]⟩
  | logout st oc hst ih =>
      by_cases htr : truthy st.tokens.storedRefresh = true
      · cases oc with
        | ok =>
            have hto : (providerLogout CallOutcome.ok st).state.tokens
                = clearTokens st.tokens := by
              simp [providerLogout, authServiceLogout, htr]
            rw [hto]; exact goodState_clear _
        | err =>
            have hto : (providerLogout CallOutcome.err st).state.tokens
                = clearTokens st.tokens := by
              simp [providerLogout, authServiceLogout, htr]
            rw [hto]; exact goodState_clear _
      · have hto : (providerLogout oc st).state.tokens = st.tokens := by
          simp [providerLogout, htr]
        rw [hto]; exact ih
  | bootstrap st rr pr hst hrr ih =>
      have hib : (initAuth st rr pr).tokens
          = (refreshSession st.tokens rr pr).tokens := rfl
      rw [hib]
      cases hs : st.tokens.storedRefresh with
      | none =>
          have hto : (refreshSession st.tokens rr pr).tokens
              = { st.tokens with refreshToken := st.tokens.storedRefresh } := by
            simp [refreshSession, loadStoredRefreshToken, hs]
          rw [hto, hs]
          exact ⟨ih.1, Or.inl rfl, hs ▸ ih.2.2.1,
            fun r hr => absurd hr (by simp),
            fun ha => (ih.2.2.2.2 ha hs).elim⟩
      | some r =>
          have hr : r ≠ "" := by
            rcases ih.2.2.1 with hn | ⟨r', hr', hne⟩
            · rw [hs] at hn; exact absurd hn (by simp)
            · rw [hs] at hr'
              injection hr' with hinj
              rw [hinj]; exact hne
          cases rr with
          | err =>
              have hto : (refreshSession st.tokens RefreshOutcome.err pr).tokens
                  = clearTokens st.tokens := by
                simp [refreshSession, loadStoredRefreshToken, hs, hr, clearTokens]
              rw [hto]; exact goodState_clear _
          | ok access =>
              cases pr with
              | none =>
                  have hto : (refreshSession st.tokens (RefreshOutcome.ok access)
                      none).tokens = clearTokens st.tokens := by
                    simp [refreshSession, loadStoredRefreshToken, hs, hr,
                      clearTokens, setTokens]
                  rw [hto]; exact goodState_clear _
              | some u =>
                  have hto : (refreshSession st.tokens (RefreshOutcome.ok access)
                      (some u)).tokens
                      = { accessToken := some access, refreshToken := some r
                          storedRefresh := some r } := by
                    simp [refreshSession, loadStoredRefreshToken, hs, hr, setTokens]
                  rw [hto]
                  exact ⟨Or.inr ⟨access, rfl, hrr⟩, Or.inr ⟨r, rfl, hr⟩,
                    Or.inr ⟨r, rfl, hr⟩, fun r' h' => h', fun _ => by simp⟩
  | intercept st req e rr hst hrr ih =>
      by_cases hc : (is401 e && truthy st.tokens.refreshToken
          && !req.retryFlag) = true
      · cases rr with
        | ok access =>
            have hto : (applyIntercept req e (RefreshOutcome.ok access) st).tokens
                = { st.tokens with accessToken := some access } := by
              simp [applyIntercept, onResponseError, hc]
            rw [hto]
            have htr : truthy st.tokens.refreshToken = true := by
              have h1 := (Bool.and_eq_true _ _).mp hc
              exact ((Bool.and_eq_true _ _).mp h1.1).2
            rcases truthy_eq_true.mp htr with ⟨r, hrt, hrne⟩
            have hsr := ih.2.2.2.1 r hrt
            exact ⟨Or.inr ⟨access, rfl, hrr⟩, ih.2.1, ih.2.2.1,
              fun r' h' => ih.2.2.2.1 r' h',
              fun _ => by rw [hsr]; simp⟩
        | err =>
            have hto : (applyIntercept req e RefreshOutcome.err st).tokens
                = clearTokens st.tokens := by
              simp [applyIntercept, onResponseError, hc, clearTokens]
            rw [hto]; exact goodState_clear _
      · have hto : (applyIntercept req e rr st).tokens = st.tokens := by
          simp [applyIntercept, onResponseError, hc]
        rw [hto]; exact ih
  | profileRefresh st u hst ih => exact ih

theorem requestInterceptor_url (s : TokenState) (config : Request) :
    (requestInterceptor s config).url = config.url := by
  unfold requestInterceptor
  split <;> rfl

theorem requestInterceptor_retryFlag (s : TokenState) (config : Request) :
    (requestInterceptor s config).retryFlag = config.retryFlag := by
  unfold requestInterceptor
  split <;> rfl

theorem onResponseError_retried (s : TokenState) (req : Request)
    (e : RespError) (rr : RefreshOutcome) (h : req.retryFlag = true) :
    onResponseError s req e rr =
      { tokens := s, redirect := false, refreshAttempted := false
        reissued := none, rejected := some e } := by
  simp [onResponseError, h]

theorem onResponseError_reissued_flag {s : TokenState} {req : Request}
    {e : RespError} {rr : RefreshOutcome} {req2 : Request}
    (h : (onResponseError s req e rr).reissued = some req2) :
    req2.retryFlag = true := by
  unfold onResponseError at h
  split at h
  · cases rr with
    | ok a =>
        simp only [InterceptOut.mk.injEq] at h
        injection h with h2
        rw [← h2]
    | err => exact absurd h (by simp)
  · exact absurd h (by simp)

theorem runFrom_retried (fuel : Nat) (s : TokenState) (req : Request)
    (sends : Nat → SendOutcome) (rs : Nat → RefreshOutcome) (i : Nat)
    (h : req.retryFlag = true) :
    (runFrom fuel s req sends rs i).refreshCount = 0 ∧
    (runFrom fuel s req sends rs i).sendCount ≤ 1 := by
  cases fuel with
  | zero => simp [runFrom]
  | succ n =>
      cases hs : sends i with
      | ok r => simp [runFrom, hs]
      | err e =>
          have hio := onResponseError_retried s (requestInterceptor s req) e
            (rs i) (by rw [requestInterceptor_retryFlag]; exact h)
          simp [runFrom, hs, hio]

theorem runFrom_bounds (fuel : Nat) (s : TokenState) (req : Request)
    (sends : Nat → SendOutcome) (rs : Nat → RefreshOutcome) (i : Nat) :
    (runFrom fuel s req sends rs i).refreshCount ≤ 1 ∧
    (runFrom fuel s req sends rs i).sendCount ≤ 2 := by
  cases fuel with
  | zero => simp [runFrom]
  | succ n =>
      cases hs : sends i with
      | ok r => simp [runFrom, hs]
      | err e =>
          cases hrei : (onResponseError s (requestInterceptor s req) e
              (rs i)).reissued with
          | none =>
              simp only [runFrom, hs, hrei]
              constructor
              · split <;> simp
              · simp
          | some req2 =>
              have hflag := onResponseError_reissued_flag hrei
              have hrest := runFrom_retried n
                (onResponseError s (requestInterceptor s req) e (rs i)).tokens
                req2 sends rs (i + 1) hflag
              simp only [runFrom, hs, hrei]
              constructor
              · rw [hrest.1]
                split <;> simp
              · have := hrest.2
                omega

/-- C1: the Request Pipeline performs at most one silent refresh-and-retry
per logical request; if the unauthorized failure arrives with no refresh
token held in memory, or with the request's `_retry` marker already set, the
failure is propagated unchanged with no refresh attempt and no retry. -/
theorem c1_at_most_one_silent_retry :
    (∀ (s : TokenState) (req : Request) (e : RespError) (rr : RefreshOutcome),
        s.refreshToken = none ∨ req.retryFlag = true →
        onResponseError s req e rr =
          { tokens := s, redirect := false, refreshAttempted := false
            reissued := none, rejected := some e }) ∧
    (∀ (fuel : Nat) (s : TokenState) (req : Request)
        (sends : Nat → SendOutcome) (rs : Nat → RefreshOutcome) (i : Nat),
        (runFrom fuel s req sends rs i).refreshCount ≤ 1 ∧
        (runFrom fuel s req sends rs i).sendCount ≤ 2) := by
  constructor
  · intro s req e rr h
    rcases h with h | h
    · simp [onResponseError, truthy, h]
    · exact onResponseError_retried s req e rr h
  · intro fuel s req sends rs i
    exact runFrom_bounds fuel s req sends rs i

/-- Witness for C1: a 401 with no tokens at all passes through raw, and a
concrete run where every send fails 401 and every refresh succeeds still
attempts at most one refresh and two sends. -/
theorem c1_at_most_one_silent_retry_witness :
    (onResponseError
        { accessToken := none, refreshToken := none, storedRefresh := none }
        (mkRequest "/orders/") (RespError.http 401) RefreshOutcome.err =
      { tokens := { accessToken := none, refreshToken := none
                    storedRefresh := none }
        redirect := false, refreshAttempted := false, reissued := none
        rejected := some (RespError.http 401) }) ∧
    ((runFrom 5 { accessToken := some "A0", refreshToken := some "R"
                  storedRefresh := some "R" }
        (mkRequest "/orders/") (fun _ => SendOutcome.err (RespError.http 401))
        (fun _ => RefreshOutcome.ok "A1") 0).refreshCount ≤ 1 ∧
      (runFrom 5 { accessToken := some "A0", refreshToken := some "R"
                   storedRefresh := some "R" }
        (mkRequest "/orders/") (fun _ => SendOutcome.err (RespError.http 401))
        (fun _ => RefreshOutcome.ok "A1") 0).sendCount ≤ 2) :=
  ⟨c1_at_most_one_silent_retry.1 _ _ _ _ (Or.inl rfl),
   c1_at_most_one_silent_retry.2 5 _ _ _ _ 0⟩

/-- C2: a 401 with a refresh token held and the retry marker unset, whose
refresh exchange also fails, clears all three token slots, redirects the user
agent to the login entry point, and rejects with the original failure. -/
theorem c2_refresh_failure_clears_and_redirects (s : TokenState)
    (req : Request) (hrt : truthy s.refreshToken = true)
    (hflag : req.retryFlag = false) :
    onResponseError s req (RespError.http 401) RefreshOutcome.err =
      { tokens := { accessToken := none, refreshToken := none
                    storedRefresh := none }
        redirect := true, refreshAttempted := true, reissued := none
        rejected := some (RespError.http 401) } := by
  simp [onResponseError, is401, hrt, hflag, clearTokens]

/-- Witness for C2 at a concrete logged-in state. -/
theorem c2_refresh_failure_clears_and_redirects_witness :
    onResponseError
        { accessToken := some "A", refreshToken := some "R"
          storedRefresh := some "R" }
        (mkRequest "/cart/") (RespError.http 401) RefreshOutcome.err =
      { tokens := { accessToken := none, refreshToken := none
                    storedRefresh := none }
        redirect := true, refreshAttempted := true, reissued := none
        rejected := some (RespError.http 401) } :=
  c2_refresh_failure_clears_and_redirects _ _ (by decide) (by decide)

/-- C3: a 401 with a refresh token held and the retry marker unset, whose
refresh exchange succeeds, replaces only the in-memory access token (the
in-memory refresh token and the durable slot are unchanged), re-issues the
original request bearing the new token, and hands the retried request's
result to the original caller, who never observes the intermediate 401. -/
theorem c3_refresh_success_retries_transparently (s : TokenState)
    (req : Request) (a : String) (hrt : truthy s.refreshToken = true)
    (hflag : req.retryFlag = false) :
    (onResponseError s req (RespError.http 401) (RefreshOutcome.ok a) =
      { tokens := { accessToken := some a, refreshToken := s.refreshToken
                    storedRefresh := s.storedRefresh }
        redirect := false, refreshAttempted := true
        reissued := some { url := req.url
                           authHeader := some ("Bearer " ++ a)
                           retryFlag := true }
        rejected := none }) ∧
    (∀ (sends : Nat → SendOutcome) (rs : Nat → RefreshOutcome) (resp : String),
        sends 0 = SendOutcome.err (RespError.http 401) →
        sends 1 = SendOutcome.ok resp →
        rs 0 = RefreshOutcome.ok a →
        (runFrom 2 s req sends rs 0).callerResult = Sum.inl resp) := by
  have hcond : (is401 (RespError.http 401) && truthy s.refreshToken
      && !req.retryFlag) = true := by
    simp [is401, hrt, hflag]
  constructor
  · simp [onResponseError, hcond]
  · intro sends rs resp h0 h1 h2
    have hflag' : (requestInterceptor s req).retryFlag = false := by
      rw [requestInterceptor_retryFlag]; exact hflag
    simp [runFrom, h0, h1, h2, onResponseError, is401, hrt, hflag']

/-- Witness for C3 at a concrete logged-in state and oracle. -/
theorem c3_refresh_success_retries_transparently_witness :
    (onResponseError
        { accessToken := some "A0", refreshToken := some "R"
          storedRefresh := some "R" }
        (mkRequest "/cart/") (RespError.http 401) (RefreshOutcome.ok "A1") =
      { tokens := { accessToken := some "A1", refreshToken := some "R"
                    storedRefresh := some "R" }
        redirect := false, refreshAttempted := true
        reissued := some { url := "/cart/"
                           authHeader := some ("Bearer " ++ "A1")
                           retryFlag := true }
        rejected := none }) ∧
    ((runFrom 2
        { accessToken := some "A0", refreshToken := some "R"
          storedRefresh := some "R" }
        (mkRequest "/cart/")
        (fun i => if i = 0 then SendOutcome.err (RespError.http 401)
                  else SendOutcome.ok "body")
        (fun _ => RefreshOutcome.ok "A1") 0).callerResult = Sum.inl "body") := by
  have h := c3_refresh_success_retries_transparently
    { accessToken := some "A0", refreshToken := some "R"
      storedRefresh := some "R" }
    (mkRequest "/cart/") "A1" (by decide) (by decide)
  exact ⟨h.1, h.2 _ _ "body" (by decide) (by decide) (by decide)⟩

/-- C9: any failure that is not HTTP 401 (another status, or a transport
failure with no response) passes through unchanged: no refresh attempt, no
re-issue, no redirect, token state untouched, original error rejected. -/
theorem c9_non_401_passthrough (s : TokenState) (req : Request)
    (e : RespError) (rr : RefreshOutcome) (h : e ≠ RespError.http 401) :
    onResponseError s req e rr =
      { tokens := s, redirect := false, refreshAttempted := false
        reissued := none, rejected := some e } := by
  have h4 : is401 e = false := by
    cases e with
    | http n =>
        simp only [is401, beq_eq_false_iff_ne, ne_eq]
        intro hn
        exact h (by rw [hn])
    | network => rfl
  simp [onResponseError, h4]

/-- Witness for C9 at a concrete 500 failure. -/
theorem c9_non_401_passthrough_witness :
    onResponseError
        { accessToken := some "A", refreshToken := some "R"
          storedRefresh := some "R" }
        (mkRequest "/orders/") (RespError.http 500) (RefreshOutcome.ok "A1") =
      { tokens := { accessToken := some "A", refreshToken := some "R"
                    storedRefresh := some "R" }
        redirect := false, refreshAttempted := false, reissued := none
        rejected := some (RespError.http 500) } :=
  c9_non_401_passthrough _ _ _ _ (by decide)

/-- C4: from every state the program can actually be in, after
`AuthProvider.logout` completes (whether the remote logout call fulfilled or
rejected), `getAccessToken()` returns absent and the durable storage slot
holds no refresh token. -/
theorem c4_logout_always_clears_tokens (st : AppState) (oc : CallOutcome)
    (hst : Reachable st) :
    getAccessToken (providerLogout oc st).state.tokens = none ∧
    (providerLogout oc st).state.tokens.storedRefresh = none := by
  have hg := reachable_good hst
  by_cases ht : truthy st.tokens.storedRefresh = true
  · cases oc with
    | ok =>
        simp [providerLogout, authServiceLogout, ht, clearTokens,
          getAccessToken]
    | err =>
        simp [providerLogout, authServiceLogout, ht, clearTokens,
          getAccessToken]
  · have ht' : truthy st.tokens.storedRefresh = false := by
      cases hb : truthy st.tokens.storedRefresh with
      | false => rfl
      | true => exact absurd hb ht
    have hsn : st.tokens.storedRefresh = none := goodSlot_falsy hg.2.2.1 ht'
    have han : st.tokens.accessToken = none := by
      by_contra hne
      exact hg.2.2.2.2 hne hsn
    simp [providerLogout, truthy, getAccessToken, hsn, han]

/-- Witness for C4: logging out of a freshly loaded anonymous tab, and after
an explicit login. -/
theorem c4_logout_always_clears_tokens_witness :
    getAccessToken (providerLogout CallOutcome.ok
        { tokens := { accessToken := none, refreshToken := none
                      storedRefresh := none }
          user := none }).state.tokens = none ∧
    (providerLogout CallOutcome.ok
        { tokens := { accessToken := none, refreshToken := none
                      storedRefresh := none }
          user := none }).state.tokens.storedRefresh = none :=
  c4_logout_always_clears_tokens _ CallOutcome.ok
    (Reachable.init none (Or.inl rfl))

/-- C5 failing input: the claim says `logout()` always succeeds locally and
clears the session; but `authService.logout` is `try`/`finally` with no
`catch`, so a rejected remote denylist call is re-thrown, `AuthProvider.logout`
rejects, and `setUser(null)` is skipped — tokens are cleared, yet the held
user profile survives and the caller sees a failed logout. -/
theorem c5_logout_can_reject_keeping_session :
    (providerLogout CallOutcome.err
        { tokens := { accessToken := some "A", refreshToken := some "R"
                      storedRefresh := some "R" }
          user := some "alice" }).succeeded = false ∧
    (providerLogout CallOutcome.err
        { tokens := { accessToken := some "A", refreshToken := some "R"
                      storedRefresh := some "R" }
          user := some "alice" }).state.user = some "alice" ∧
    (providerLogout CallOutcome.err
        { tokens := { accessToken := some "A", refreshToken := some "R"
                      storedRefresh := some "R" }
          user := some "alice" }).cleared = true ∧
    (providerLogout CallOutcome.err
        { tokens := { accessToken := some "A", refreshToken := some "R"
                      storedRefresh := some "R" }
          user := some "alice" }).state.tokens
      = { accessToken := none, refreshToken := none
          storedRefresh := none } := by
  decide

/-- C6: from every reachable state whose durable slot holds a refresh token,
the Session Bootstrapper on refresh success stores the new access token with
the same refresh token retained, fetches the profile, and reaches
`Authenticated` exposing it; if the refresh exchange or the profile fetch
fails, it clears all three token slots and reaches `Anonymous`. -/
theorem c6_bootstrap_with_stored_token (st : AppState) (r : String)
    (hst : Reachable st) (h : st.tokens.storedRefresh = some r) :
    (∀ a u, refreshSession st.tokens (RefreshOutcome.ok a) (some u) =
        { tokens := { accessToken := some a, refreshToken := some r
                      storedRefresh := some r }
          user := some u, networkCalls := 2 } ∧
        isAuthenticated (initAuth st (RefreshOutcome.ok a) (some u)) = true) ∧
    (∀ pr, refreshSession st.tokens RefreshOutcome.err pr =
        { tokens := { accessToken := none, refreshToken := none
                      storedRefresh := none }
          user := none, networkCalls := 1 } ∧
        isAuthenticated (initAuth st RefreshOutcome.err pr) = false) ∧
    (∀ a, refreshSession st.tokens (RefreshOutcome.ok a) none =
        { tokens := { accessToken := none, refreshToken := none
                      storedRefresh := none }
          user := none, networkCalls := 2 } ∧
        isAuthenticated (initAuth st (RefreshOutcome.ok a) none) = false) := by
  have hg := reachable_good hst
  have hr : r ≠ "" := by
    rcases hg.2.2.1 with hn | ⟨r', hr', hne⟩
    · rw [h] at hn; exact absurd hn (by simp)
    · rw [h] at hr'
      injection hr' with hinj
      rw [hinj]; exact hne
  refine ⟨?_, ?_, ?_⟩
  · intro a u
    constructor
    · simp [refreshSession, loadStoredRefreshToken, h, hr, setTokens]
    · simp [initAuth, isAuthenticated, refreshSession, loadStoredRefreshToken,
        h, hr, setTokens]
  · intro pr
    constructor
    · simp [refreshSession, loadStoredRefreshToken, h, hr, clearTokens]
    · simp [initAuth, isAuthenticated, refreshSession, loadStoredRefreshToken,
        h, hr, clearTokens]
  · intro a
    constructor
    · simp [refreshSession, loadStoredRefreshToken, h, hr, clearTokens,
        setTokens]
    · simp [initAuth, isAuthenticated, refreshSession, loadStoredRefreshToken,
        h, hr, clearTokens, setTokens]

/-- Witness for C6: a fresh page load with a stored refresh token. -/
theorem c6_bootstrap_with_stored_token_witness :
    (refreshSession { accessToken := none, refreshToken := none
                      storedRefresh := some "R" }
        (RefreshOutcome.ok "A") (some "alice") =
      { tokens := { accessToken := some "A", refreshToken := some "R"
                    storedRefresh := some "R" }
        user := some "alice", networkCalls := 2 } ∧
      isAuthenticated (initAuth
        { tokens := { accessToken := none, refreshToken := none
                      storedRefresh := some "R" }
          user := none } (RefreshOutcome.ok "A") (some "alice")) = true) ∧
    (refreshSession { accessToken := none, refreshToken := none
                      storedRefresh := some "R" }
        RefreshOutcome.err none =
      { tokens := { accessToken := none, refreshToken := none
                    storedRefresh := none }
        user := none, networkCalls := 1 } ∧
      isAuthenticated (initAuth
        { tokens := { accessToken := none, refreshToken := none
                      storedRefresh := some "R" }
          user := none } RefreshOutcome.err none) = false) :=
  ⟨(c6_bootstrap_with_stored_token
      { tokens := { accessToken := none, refreshToken := none
                    storedRefresh := some "R" }
        user := none } "R"
      (Reachable.init (some "R") (Or.inr ⟨"R", rfl, by decide⟩)) rfl).1 "A"
      "alice",
   (c6_bootstrap_with_stored_token
      { tokens := { accessToken := none, refreshToken := none
                    storedRefresh := some "R" }
        user := none } "R"
      (Reachable.init (some "R") (Or.inr ⟨"R", rfl, by decide⟩)) rfl).2.1 none⟩

/-- C7: with no durable refresh token, the Session Bootstrapper returns
`null` without performing any network call, and the app reaches
`Anonymous`. -/
theorem c7_no_stored_token_is_anonymous (st : AppState) (rr : RefreshOutcome)
    (pr : Option User) (h : st.tokens.storedRefresh = none) :
    refreshSession st.tokens rr pr =
      { tokens := { st.tokens with refreshToken := none }
        user := none, networkCalls := 0 } ∧
    isAuthenticated (initAuth st rr pr) = false := by
  constructor
  · simp [refreshSession, loadStoredRefreshToken, h]
  · simp [initAuth, isAuthenticated, refreshSession, loadStoredRefreshToken, h]

/-- Witness for C7: a first visit with an empty durable slot. -/
theorem c7_no_stored_token_is_anonymous_witness :
    refreshSession { accessToken := none, refreshToken := none
                     storedRefresh := none }
        (RefreshOutcome.ok "A") (some "alice") =
      { tokens := { accessToken := none, refreshToken := none
                    storedRefresh := none }
        user := none, networkCalls := 0 } ∧
    isAuthenticated (initAuth
      { tokens := { accessToken := none, refreshToken := none
                    storedRefresh := none }
        user := none } (RefreshOutcome.ok "A") (some "alice")) = false :=
  c7_no_stored_token_is_anonymous
    { tokens := { accessToken := none, refreshToken := none
                  storedRefresh := none }
      user := none } (RefreshOutcome.ok "A") (some "alice") rfl

/-- C8: in every reachable state holding an access token, an outbound request
leaves the request interceptor carrying that token as a bearer credential in
its `Authorization` header (url and retry marker untouched); with no access
token held, a service-layer request passes through with no `Authorization`
header. -/
theorem c8_bearer_credential_injection :
    (∀ (st : AppState) (a : String) (req : Request), Reachable st →
        st.tokens.accessToken = some a →
        (requestInterceptor st.tokens req).authHeader
          = some ("Bearer " ++ a) ∧
        (requestInterceptor st.tokens req).url = req.url ∧
        (requestInterceptor st.tokens req).retryFlag = req.retryFlag) ∧
    (∀ (s : TokenState) (u : String), s.accessToken = none →
        requestInterceptor s (mkRequest u) = mkRequest u) := by
  constructor
  · intro st a req hreach hacc
    have hgood := (reachable_good hreach).1
    have hne : a ≠ "" := by
      rcases hgood with hn | ⟨r, hrr, hne⟩
      · rw [hacc] at hn; exact absurd hn (by simp)
      · rw [hacc] at hrr
        injection hrr with hinj
        rw [hinj]; exact hne
    have ht : truthy st.tokens.accessToken = true :=
      truthy_eq_true.mpr ⟨a, hacc, hne⟩
    refine ⟨?_, requestInterceptor_url _ _, requestInterceptor_retryFlag _ _⟩
    simp [requestInterceptor, truthy, hacc, hne]
  · intro s u hacc
    simp [requestInterceptor, truthy, hacc]

/-- Witness for C8: a request sent right after login carries the bearer
header; a request from an empty-memory state carries none. -/
theorem c8_bearer_credential_injection_witness :
    ((requestInterceptor (applyLogin "A" "R" "alice"
        { tokens := { accessToken := none, refreshToken := none
                      storedRefresh := none }
          user := none }).tokens (mkRequest "/products/")).authHeader
      = some ("Bearer " ++ "A") ∧
     (requestInterceptor (applyLogin "A" "R" "alice"
        { tokens := { accessToken := none, refreshToken := none
                      storedRefresh := none }
          user := none }).tokens (mkRequest "/products/")).url
      = (mkRequest "/products/").url ∧
     (requestInterceptor (applyLogin "A" "R" "alice"
        { tokens := { accessToken := none, refreshToken := none
                      storedRefresh := none }
          user := none }).tokens (mkRequest "/products/")).retryFlag
      = (mkRequest "/products/").retryFlag) ∧
    requestInterceptor { accessToken := none, refreshToken := none
                         storedRefresh := none } (mkRequest "/products/")
      = mkRequest "/products/" :=
  ⟨c8_bearer_credential_injection.1 _ "A" (mkRequest "/products/")
      (Reachable.login _ "A" "R" "alice"
        (Reachable.init none (Or.inl rfl)) (by decide) (by decide)) rfl,
   c8_bearer_credential_injection.2 _ "/products/" rfl⟩

/-- C10: when the durable slot holds no refresh token, `AuthProvider.logout`
makes no network call and never invokes `clearTokens`, so the in-memory token
state (including any held access token) is untouched; only the held user
profile is set to absent, and the call fulfils. -/
theorem c10_logout_without_stored_slot (st : AppState) (oc : CallOutcome)
    (h : st.tokens.storedRefresh = none) :
    (providerLogout oc st).networkCall = false ∧
    (providerLogout oc st).cleared = false ∧
    (providerLogout oc st).state.tokens = st.tokens ∧
    getAccessToken (providerLogout oc st).state.tokens
      = getAccessToken st.tokens ∧
    (providerLogout oc st).state.user = none ∧
    (providerLogout oc st).succeeded = true := by
  have ht : truthy st.tokens.storedRefresh = false := by rw [h]; rfl
  simp [providerLogout, ht, getAccessToken]

/-- Witness for C10: an access token held in memory with no durable slot
survives `logout()`. -/
theorem c10_logout_without_stored_slot_witness :
    (providerLogout CallOutcome.ok
        { tokens := { accessToken := some "A", refreshToken := none
                      storedRefresh := none }
          user := some "alice" }).networkCall = false ∧
    (providerLogout CallOutcome.ok
        { tokens := { accessToken := some "A", refreshToken := none
                      storedRefresh := none }
          user := some "alice" }).cleared = false ∧
    (providerLogout CallOutcome.ok
        { tokens := { accessToken := some "A", refreshToken := none
                      storedRefresh := none }
          user := some "alice" }).state.tokens
      = { accessToken := some "A", refreshToken := none
          storedRefresh := none } ∧
    getAccessToken (providerLogout CallOutcome.ok
        { tokens := { accessToken := some "A", refreshToken := none
                      storedRefresh := none }
          user := some "alice" }).state.tokens
      = getAccessToken { accessToken := some "A", refreshToken := none
                         storedRefresh := none } ∧
    (providerLogout CallOutcome.ok
        { tokens := { accessToken := some "A", refreshToken := none
                      storedRefresh := none }
          user := some "alice" }).state.user = none ∧
    (providerLogout CallOutcome.ok
        { tokens := { accessToken := some "A", refreshToken := none
                      storedRefresh := none }
          user := some "alice" }).succeeded = true :=
  c10_logout_without_stored_slot
    { tokens := { accessToken := some "A", refreshToken := none
                  storedRefresh := none }
      user := some "alice" } CallOutcome.ok rfl
